import Mathlib

/-!
Shallow embedding of the particle engine of `game.js` (Super Kiro World).

JS numbers are modelled as rationals (`ℚ`); the transcendental functions
`Math.sin` / `Math.cos` and the constant `Math.PI` are abstracted into a
`MathEnv` parameter, and `Math.random()` draws are supplied by an explicit
stream `rnd : ℕ → ℚ`, consumed in the order the source calls them.
-/

set_option autoImplicit false

namespace SuperKiro

/-- Abstraction of the JS `Math` object: `sin`, `cos` and `PI`. -/
structure MathEnv where
  sin : ℚ → ℚ
  cos : ℚ → ℚ
  pi : ℚ

/-- State of a `Particle` (game.js lines 4-16).  The JS constructor leaves
`twinkleSpeed` / `twinkleOffset` undefined; undefined and `0` are both falsy
in the guard `this.type === 'sparkle' && this.twinkleSpeed`, so both are
modelled by the value `0`. -/
structure Particle where
  x : ℚ
  y : ℚ
  velocityX : ℚ
  velocityY : ℚ
  life : ℚ
  maxLife : ℚ
  color : String
  type : String
  size : ℚ
  alpha : ℚ
  twinkleSpeed : ℚ
  twinkleOffset : ℚ
  deriving DecidableEq, Repr

/-- `new Particle(x, y, velocityX, velocityY, life, color, type, size = 4)`:
the constructor sets `maxLife = life` and `alpha = 1.0` and leaves the
twinkle fields undefined (modelled as `0`). -/
def Particle.new (x y velocityX velocityY life : ℚ) (color type : String)
    (size : ℚ := 4) : Particle :=
  { x := x, y := y, velocityX := velocityX, velocityY := velocityY,
    life := life, maxLife := life, color := color, type := type,
    size := size, alpha := 1, twinkleSpeed := 0, twinkleOffset := 0 }

/-- `Particle.isDead()` (game.js lines 120-122): `life <= 0`. -/
def Particle.isDead (p : Particle) : Bool :=
  decide (p.life ≤ 0)

/-- `Particle.update(deltaTime)` (game.js lines 18-48), translated
statement by statement: position advance, life decrement, alpha from
remaining life, sparkle twinkle block, gravity for explosion/confetti,
then the fixed per-call air resistance factor 0.98. -/
def Particle.update (m : MathEnv) (deltaTime : ℚ) (p : Particle) : Particle :=
  let x := p.x + p.velocityX * deltaTime
  let y := p.y + p.velocityY * deltaTime
  let life := p.life - deltaTime
  let alpha0 := max 0 (life / p.maxLife)
  let sparkle :=
    if p.type = "sparkle" ∧ p.twinkleSpeed ≠ 0 then
      let twinkleTime := (p.maxLife - life) * p.twinkleSpeed + p.twinkleOffset
      let twinkleAlpha := 0.3 + 0.7 * (m.sin twinkleTime * 0.5 + 0.5)
      (alpha0 * twinkleAlpha, p.velocityY + m.sin (twinkleTime * 0.5) * 0.01)
    else
      (alpha0, p.velocityY)
  let vy1 :=
    if p.type = "explosion" ∨ p.type = "confetti" then
      sparkle.2 + 0.3 * deltaTime
    else
      sparkle.2
  { p with
    x := x, y := y, life := life, alpha := sparkle.1,
    velocityX := p.velocityX * 0.98,
    velocityY := vy1 * 0.98 }

/-- Field-wise behaviour of `update`: the position, life and `velocityX`
components, which do not depend on the particle kind. -/
theorem Particle.update_basic (m : MathEnv) (dt : ℚ) (p : Particle) :
    (p.update m dt).x = p.x + p.velocityX * dt ∧
    (p.update m dt).y = p.y + p.velocityY * dt ∧
    (p.update m dt).life = p.life - dt ∧
    (p.update m dt).velocityX = p.velocityX * 0.98 ∧
    (p.update m dt).maxLife = p.maxLife ∧
    (p.update m dt).type = p.type := by
  simp [Particle.update]

/-- `velocityY` after `update` for explosion/confetti kinds: gravity then
air resistance. -/
theorem Particle.update_velocityY_grav (m : MathEnv) (dt : ℚ) (p : Particle)
    (h : p.type = "explosion" ∨ p.type = "confetti") :
    (p.update m dt).velocityY = (p.velocityY + 0.3 * dt) * 0.98 := by
  rcases h with h | h <;>
    simp [Particle.update, h]

/-- `velocityY` after `update` for a twinkling sparkle: the sine nudge (not
scaled by `dt`) then air resistance, and no gravity term. -/
theorem Particle.update_velocityY_sparkle (m : MathEnv) (dt : ℚ) (p : Particle)
    (h : p.type = "sparkle") (hs : p.twinkleSpeed ≠ 0) :
    (p.update m dt).velocityY =
      (p.velocityY +
        m.sin (((p.maxLife - (p.life - dt)) * p.twinkleSpeed + p.twinkleOffset) * 0.5)
          * 0.01) * 0.98 := by
  simp [Particle.update, h, hs]

/-- `velocityY` after `update` for every other kind (trail, non-twinkling
sparkle, unknown): only air resistance is applied. -/
theorem Particle.update_velocityY_other (m : MathEnv) (dt : ℚ) (p : Particle)
    (h1 : ¬ (p.type = "explosion" ∨ p.type = "confetti"))
    (h2 : ¬ (p.type = "sparkle" ∧ p.twinkleSpeed ≠ 0)) :
    (p.update m dt).velocityY = p.velocityY * 0.98 := by
  simp only [Particle.update]
  rw [if_neg h2, if_neg h1]

/-- `alpha` after `update` when the sparkle twinkle branch is not taken. -/
theorem Particle.update_alpha_other (m : MathEnv) (dt : ℚ) (p : Particle)
    (h : ¬ (p.type = "sparkle" ∧ p.twinkleSpeed ≠ 0)) :
    (p.update m dt).alpha = max 0 ((p.life - dt) / p.maxLife) := by
  simp only [Particle.update]
  rw [if_neg h]

/-- `alpha` after `update` for a twinkling sparkle: the life-ratio alpha
modulated by the twinkle factor. -/
theorem Particle.update_alpha_sparkle (m : MathEnv) (dt : ℚ) (p : Particle)
    (h : p.type = "sparkle") (hs : p.twinkleSpeed ≠ 0) :
    (p.update m dt).alpha =
      max 0 ((p.life - dt) / p.maxLife) *
        (0.3 + 0.7 *
          (m.sin ((p.maxLife - (p.life - dt)) * p.twinkleSpeed + p.twinkleOffset)
            * 0.5 + 0.5)) := by
  simp [Particle.update, h, hs]

/-- The explosion particle of the spec scenario: spawned at (100,100) with
`velocityY = -5` and life 1000. -/
def pExplScenario : Particle :=
  Particle.new 100 100 0 (-5) 1000 "#FF8C00" "explosion"

/-- Claim C2: one `Particle.update(dt)` call advances `x` by `vx*dt` and `y`
by `vy*dt`, decrements `life` by `dt`, adds `0.3*dt` to `velocityY` exactly
for the explosion and confetti kinds (never trail or sparkle), and last
multiplies both velocity components by the fixed per-call factor 0.98;
in the scenario an explosion particle with `velocityY = -5` has
`velocityY = (-5 + 0.3*16.67) * 0.98` after one `update(16.67)`,
in particular within 0.1 of that value. -/
theorem claim_C2_update_physics (m : MathEnv) (dt : ℚ) (p : Particle) :
    ((p.update m dt).x = p.x + p.velocityX * dt) ∧
    ((p.update m dt).y = p.y + p.velocityY * dt) ∧
    ((p.update m dt).life = p.life - dt) ∧
    ((p.update m dt).velocityX = p.velocityX * 0.98) ∧
    (p.type = "explosion" ∨ p.type = "confetti" →
      (p.update m dt).velocityY = (p.velocityY + 0.3 * dt) * 0.98) ∧
    (p.type = "trail" → (p.update m dt).velocityY = p.velocityY * 0.98) ∧
    (p.type = "sparkle" → p.twinkleSpeed = 0 →
      (p.update m dt).velocityY = p.velocityY * 0.98) ∧
    (p.type = "sparkle" → p.twinkleSpeed ≠ 0 →
      (p.update m dt).velocityY =
        (p.velocityY +
          m.sin (((p.maxLife - (p.life - dt)) * p.twinkleSpeed + p.twinkleOffset) * 0.5)
            * 0.01) * 0.98) ∧
    ((Particle.update m 16.67 pExplScenario).velocityY =
      ((-5 : ℚ) + 0.3 * 16.67) * 0.98) ∧
    (|(Particle.update m 16.67 pExplScenario).velocityY -
      ((-5 : ℚ) + 0.3 * 16.67) * 0.98| ≤ 0.1) := by
  obtain ⟨hx, hy, hl, hvx, -, -⟩ := Particle.update_basic m dt p
  refine ⟨hx, hy, hl, hvx, ?_, ?_, ?_, ?_, ?_, ?_⟩
  · exact Particle.update_velocityY_grav m dt p
  · intro h
    refine Particle.update_velocityY_other m dt p ?_ ?_ <;> simp [h]
  · intro h hs
    refine Particle.update_velocityY_other m dt p ?_ ?_ <;> simp [h, hs]
  · intro h hs
    exact Particle.update_velocityY_sparkle m dt p h hs
  · rw [Particle.update_velocityY_grav m 16.67 pExplScenario (Or.inl rfl)]
    norm_num [pExplScenario, Particle.new]
  · rw [Particle.update_velocityY_grav m 16.67 pExplScenario (Or.inl rfl)]
    norm_num [pExplScenario, Particle.new]

/-- Claim C2 witness: the characterisation applied to the scenario particle
with a trivial math environment, each premise discharged concretely. -/
theorem claim_C2_update_physics_witness :
    (Particle.update ⟨fun _ => 0, fun _ => 0, 0⟩ 16.67 pExplScenario).velocityY =
      ((-5 : ℚ) + 0.3 * 16.67) * 0.98 :=
  ((claim_C2_update_physics ⟨fun _ => 0, fun _ => 0, 0⟩ 16.67
    pExplScenario).2.2.2.2.2.2.2.2.1)

/-- Claim C5: for a sparkle particle with twinkle fields set, `update(dt)`
computes `twinkleTime = (maxLife - life) * twinkleSpeed + twinkleOffset`
(with the already-decremented life), multiplies the life-ratio alpha by
`0.3 + 0.7 * (0.5 + 0.5*sin twinkleTime)`, and adds
`sin(twinkleTime * 0.5) * 0.01` to `velocityY` once, not scaled by `dt`,
before the 0.98 damping; no `0.3*dt` gravity increment is ever applied to a
sparkle (twinkling or not). -/
theorem claim_C5_sparkle_twinkle (m : MathEnv) (dt : ℚ) (p : Particle)
    (h : p.type = "sparkle") :
    (p.twinkleSpeed ≠ 0 →
      (p.update m dt).alpha =
        max 0 ((p.life - dt) / p.maxLife) *
          (0.3 + 0.7 *
            (m.sin ((p.maxLife - (p.life - dt)) * p.twinkleSpeed + p.twinkleOffset)
              * 0.5 + 0.5)) ∧
      (p.update m dt).velocityY =
        (p.velocityY +
          m.sin (((p.maxLife - (p.life - dt)) * p.twinkleSpeed + p.twinkleOffset) * 0.5)
            * 0.01) * 0.98) ∧
    (p.twinkleSpeed = 0 →
      (p.update m dt).velocityY = p.velocityY * 0.98) := by
  constructor
  · intro hs
    exact ⟨Particle.update_alpha_sparkle m dt p h hs,
      Particle.update_velocityY_sparkle m dt p h hs⟩
  · intro hs
    refine Particle.update_velocityY_other m dt p ?_ ?_ <;> simp [h, hs]

/-- Claim C5 witness: applied to a concrete twinkling sparkle with the zero
sine environment; both premises discharged concretely. -/
theorem claim_C5_sparkle_twinkle_witness :
    (Particle.update ⟨fun _ => 0, fun _ => 0, 0⟩ 10
        { Particle.new 0 0 0 2 100 "#FFFFFF" "sparkle" with
          twinkleSpeed := 0.1, twinkleOffset := 1 }).alpha =
      max 0 (((100 : ℚ) - 10) / 100) * (0.3 + 0.7 * (0 * 0.5 + 0.5)) :=
  ((claim_C5_sparkle_twinkle ⟨fun _ => 0, fun _ => 0, 0⟩ 10
      { Particle.new 0 0 0 2 100 "#FFFFFF" "sparkle" with
        twinkleSpeed := 0.1, twinkleOffset := 1 } rfl).1 (by norm_num)).1

/-- Claim C8: for a particle with `maxLife > 0`, after any `update` the
alpha equals `max 0 (life/maxLife)` (exactly, for every particle outside
the sparkle twinkle branch; modulated by the twinkle factor inside it);
`update(dt)` with `dt > 0` strictly decreases `life`; and whenever the
post-update `life ≤ 0`, the post-update `alpha` is 0. -/
theorem claim_C8_alpha_life (m : MathEnv) (dt : ℚ) (p : Particle)
    (hml : 0 < p.maxLife) :
    (¬ (p.type = "sparkle" ∧ p.twinkleSpeed ≠ 0) →
      (p.update m dt).alpha = max 0 ((p.life - dt) / p.maxLife)) ∧
    (p.type = "sparkle" ∧ p.twinkleSpeed ≠ 0 →
      (p.update m dt).alpha =
        max 0 ((p.life - dt) / p.maxLife) *
          (0.3 + 0.7 *
            (m.sin ((p.maxLife - (p.life - dt)) * p.twinkleSpeed + p.twinkleOffset)
              * 0.5 + 0.5))) ∧
    (0 < dt → (p.update m dt).life < p.life) ∧
    ((p.update m dt).life ≤ 0 → (p.update m dt).alpha = 0) := by
  obtain ⟨-, -, hl, -, -, -⟩ := Particle.update_basic m dt p
  refine ⟨Particle.update_alpha_other m dt p, fun h =>
    Particle.update_alpha_sparkle m dt p h.1 h.2, ?_, ?_⟩
  · intro hdt
    rw [hl]
    linarith
  · intro hdead
    rw [hl] at hdead
    have hratio : (p.life - dt) / p.maxLife ≤ 0 :=
      div_nonpos_of_nonpos_of_nonneg hdead (le_of_lt hml)
    have hmax : max 0 ((p.life - dt) / p.maxLife) = 0 := max_eq_left hratio
    by_cases h : p.type = "sparkle" ∧ p.twinkleSpeed ≠ 0
    · rw [Particle.update_alpha_sparkle m dt p h.1 h.2, hmax, zero_mul]
    · rw [Particle.update_alpha_other m dt p h, hmax]

/-- Claim C8 witness: applied to the scenario explosion particle
(`maxLife = 1000 > 0`), extracting the dead-particle alpha fact after a
lethal time step. -/
theorem claim_C8_alpha_life_witness :
    (Particle.update ⟨fun _ => 0, fun _ => 0, 0⟩ 2000 pExplScenario).alpha = 0 :=
  (claim_C8_alpha_life ⟨fun _ => 0, fun _ => 0, 0⟩ 2000 pExplScenario
    (by norm_num [pExplScenario, Particle.new])).2.2.2 (by
      norm_num [Particle.update, pExplScenario, Particle.new])

/-- State of the `ParticleSystem` (game.js lines 126-154), with the
`performanceStats` object inlined as fields.  `Date.now()` readings are
modelled as explicit `ℤ` millisecond arguments. -/
structure ParticleSystem where
  particles : List Particle
  maxParticles : ℤ
  particlePool : List Particle
  poolSize : ℕ
  frameCount : ℕ
  lastFPSCheck : ℤ
  currentFPS : ℕ
  particleCreationCount : ℕ
  poolHits : ℕ
  poolMisses : ℕ
  deriving DecidableEq, Repr

/-- The `ParticleSystem` constructor (game.js lines 127-161): empty active
list, `maxParticles = 200`, `poolSize = 300`, and `initializePool` filling
the pool with 300 fresh default particles; `now` is the `Date.now()` value
stored in `lastFPSCheck`. -/
def ParticleSystem.init (now : ℤ) : ParticleSystem :=
  { particles := [], maxParticles := 200,
    particlePool := List.replicate 300 (Particle.new 0 0 0 0 0 "#FFFFFF" "trail"),
    poolSize := 300, frameCount := 0, lastFPSCheck := now, currentFPS := 60,
    particleCreationCount := 0, poolHits := 0, poolMisses := 0 }

/-- `getParticleFromPool()` (game.js lines 164-172): pop the last pool
element (JS `Array.pop`) and count a pool hit, else construct a fresh
particle and count a pool miss. -/
def ParticleSystem.getParticleFromPool (s : ParticleSystem) :
    Particle × ParticleSystem :=
  if h : s.particlePool ≠ [] then
    (s.particlePool.getLast h,
     { s with
       particlePool := s.particlePool.dropLast,
       poolHits := s.poolHits + 1 })
  else
    (Particle.new 0 0 0 0 0 "#FFFFFF" "trail",
     { s with poolMisses := s.poolMisses + 1 })

/-- `returnParticleToPool(particle)` (game.js lines 175-182): when the pool
is below `poolSize`, reset `life` to 0 and `alpha` to 1.0 and push the
particle back (JS `Array.push`, at the end); otherwise drop it. -/
def ParticleSystem.returnParticleToPool (s : ParticleSystem) (p : Particle) :
    ParticleSystem :=
  if s.particlePool.length < s.poolSize then
    { s with particlePool := s.particlePool ++ [{ p with life := 0, alpha := 1 }] }
  else
    s

/-- `colors[Math.floor(Math.random() * colors.length)]`: the color pick used
by every spawn operation, with `r` the `Math.random()` draw. -/
def pickColor (colors : List String) (r : ℚ) : String :=
  colors.getD (Int.toNat ⌊r * (colors.length : ℚ)⌋) "#FFFFFF"

/-- `createTrailParticle(x, y, velocityX, velocityY)` (game.js lines
212-236): no-op at capacity, else take a pooled particle, reinitialise all
render-relevant fields and append it.  `rnd 0 .. rnd 6` are the seven
`Math.random()` draws in source order (color, x, y, vx, vy, life, size). -/
def ParticleSystem.createTrailParticle (s : ParticleSystem) (rnd : ℕ → ℚ)
    (x y velocityX velocityY : ℚ) : ParticleSystem :=
  if (s.particles.length : ℤ) ≥ s.maxParticles then s
  else
    let pair := s.getParticleFromPool
    let color := pickColor ["#FF8C00", "#FFA500", "#FFB84D"] (rnd 0)
    let p := { pair.1 with
      x := x + rnd 1 * 8 - 4,
      y := y + rnd 2 * 8 - 4,
      velocityX := velocityX * 0.3 + (rnd 3 - 0.5) * 2,
      velocityY := velocityY * 0.3 + (rnd 4 - 0.5) * 2,
      life := 1000 + rnd 5 * 500,
      maxLife := 1000 + rnd 5 * 500,
      color := color,
      type := "trail",
      size := 2 + rnd 6 * 2,
      alpha := 1 }
    { pair.2 with
      particles := pair.2.particles ++ [p],
      particleCreationCount := pair.2.particleCreationCount + 1 }

/-- Loop body of `createExplosionParticles` (game.js lines 242-262) for
index `i`; `rnd (5*i) .. rnd (5*i+4)` are the five `Math.random()` draws of
iteration `i` in source order (angle jitter, speed, life, color, size). -/
def ParticleSystem.explosionBody (m : MathEnv) (rnd : ℕ → ℚ) (x y : ℚ)
    (colors : List String) (actualCount : ℕ) (s : ParticleSystem) (i : ℕ) :
    ParticleSystem :=
  let pair := s.getParticleFromPool
  let angle := m.pi * 2 * (i : ℚ) / (actualCount : ℚ) + rnd (5 * i) * 0.5
  let speed := 3 + rnd (5 * i + 1) * 4
  let p := { pair.1 with
    x := x, y := y,
    velocityX := m.cos angle * speed,
    velocityY := m.sin angle * speed,
    life := 800 + rnd (5 * i + 2) * 400,
    maxLife := 800 + rnd (5 * i + 2) * 400,
    color := pickColor colors (rnd (5 * i + 3)),
    type := "explosion",
    size := 3 + rnd (5 * i + 4) * 3,
    alpha := 1 }
  { pair.2 with
    particles := pair.2.particles ++ [p],
    particleCreationCount := pair.2.particleCreationCount + 1 }

/-- `createExplosionParticles(x, y, count, colors)` (game.js lines 238-263):
`actualCount = min(count, maxParticles - particles.length)` computed once,
then exactly `actualCount` loop iterations (none when the minimum is
negative, as for the JS `for` loop). -/
def ParticleSystem.createExplosionParticles (s : ParticleSystem)
    (m : MathEnv) (rnd : ℕ → ℚ) (x y : ℚ) (count : ℤ)
    (colors : List String := ["#FF8C00", "#FFA500", "#FFB84D"]) :
    ParticleSystem :=
  let actualCount := (min count (s.maxParticles - (s.particles.length : ℤ))).toNat
  (List.range actualCount).foldl (ParticleSystem.explosionBody m rnd x y colors actualCount) s

/-- Loop body of `createSparkleParticles` (game.js lines 272-293) for index
`i`; `rnd (9*i) .. rnd (9*i+8)` are the nine `Math.random()` draws of
iteration `i` in source order (x, y, vx, vy, life, color, size,
twinkleSpeed, twinkleOffset). -/
def ParticleSystem.sparkleBody (m : MathEnv) (rnd : ℕ → ℚ) (x y : ℚ)
    (s : ParticleSystem) (i : ℕ) : ParticleSystem :=
  let sparkleColors := ["#FFFFFF", "#FFD700", "#FFFF00", "#00FFFF", "#FF00FF", "#00FF00"]
  let pair := s.getParticleFromPool
  let p := { pair.1 with
    x := x + (rnd (9 * i) - 0.5) * 30,
    y := y + (rnd (9 * i + 1) - 0.5) * 30,
    velocityX := (rnd (9 * i + 2) - 0.5) * 1.5,
    velocityY := -(rnd (9 * i + 3)) * 1.5 - 0.5,
    life := 2000 + rnd (9 * i + 4) * 1500,
    maxLife := 2000 + rnd (9 * i + 4) * 1500,
    color := pickColor sparkleColors (rnd (9 * i + 5)),
    type := "sparkle",
    size := 3 + rnd (9 * i + 6) * 3,
    alpha := 1,
    twinkleSpeed := 0.05 + rnd (9 * i + 7) * 0.1,
    twinkleOffset := rnd (9 * i + 8) * m.pi * 2 }
  { pair.2 with
    particles := pair.2.particles ++ [p],
    particleCreationCount := pair.2.particleCreationCount + 1 }

/-- `createSparkleParticles(x, y, count)` (game.js lines 265-294). -/
def ParticleSystem.createSparkleParticles (s : ParticleSystem)
    (m : MathEnv) (rnd : ℕ → ℚ) (x y : ℚ) (count : ℤ) : ParticleSystem :=
  let actualCount := (min count (s.maxParticles - (s.particles.length : ℤ))).toNat
  (List.range actualCount).foldl (ParticleSystem.sparkleBody m rnd x y) s

/-- Loop body of `createConfettiParticles` (game.js lines 300-320) for
index `i`; `rnd (5*i) .. rnd (5*i+4)` are the five `Math.random()` draws of
iteration `i` in source order (angle, speed, life, color, size). -/
def ParticleSystem.confettiBody (m : MathEnv) (rnd : ℕ → ℚ) (x y : ℚ)
    (colors : List String) (s : ParticleSystem) (i : ℕ) : ParticleSystem :=
  let pair := s.getParticleFromPool
  let angle := rnd (5 * i) * m.pi * 2
  let speed := 2 + rnd (5 * i + 1) * 5
  let p := { pair.1 with
    x := x, y := y,
    velocityX := m.cos angle * speed,
    velocityY := m.sin angle * speed - 3,
    life := 2000 + rnd (5 * i + 2) * 1000,
    maxLife := 2000 + rnd (5 * i + 2) * 1000,
    color := pickColor colors (rnd (5 * i + 3)),
    type := "confetti",
    size := 4 + rnd (5 * i + 4) * 4,
    alpha := 1 }
  { pair.2 with
    particles := pair.2.particles ++ [p],
    particleCreationCount := pair.2.particleCreationCount + 1 }

/-- `createConfettiParticles(x, y, count, colors)` (game.js lines 296-321). -/
def ParticleSystem.createConfettiParticles (s : ParticleSystem)
    (m : MathEnv) (rnd : ℕ → ℚ) (x y : ℚ) (count : ℤ)
    (colors : List String := ["#FF8C00", "#FFA500", "#FFB84D", "#FFFFFF"]) :
    ParticleSystem :=
  let actualCount := (min count (s.maxParticles - (s.particles.length : ℤ))).toNat
  (List.range actualCount).foldl (ParticleSystem.confettiBody m rnd x y colors) s

/-- `getParticleFromPool` leaves the active list, the capacity ceiling and
the pool capacity unchanged. -/
theorem getParticleFromPool_frame (s : ParticleSystem) :
    s.getParticleFromPool.2.particles = s.particles ∧
    s.getParticleFromPool.2.maxParticles = s.maxParticles ∧
    s.getParticleFromPool.2.poolSize = s.poolSize := by
  unfold ParticleSystem.getParticleFromPool
  split <;> simp

/-- Each explosion loop iteration appends exactly one particle and keeps
the ceiling and pool capacity. -/
theorem explosionBody_frame (m : MathEnv) (rnd : ℕ → ℚ) (x y : ℚ)
    (colors : List String) (actualCount : ℕ) (s : ParticleSystem) (i : ℕ) :
    (ParticleSystem.explosionBody m rnd x y colors actualCount s i).particles.length
      = s.particles.length + 1 ∧
    (ParticleSystem.explosionBody m rnd x y colors actualCount s i).maxParticles
      = s.maxParticles ∧
    (ParticleSystem.explosionBody m rnd x y colors actualCount s i).poolSize
      = s.poolSize := by
  obtain ⟨h1, h2, h3⟩ := getParticleFromPool_frame s
  simp [ParticleSystem.explosionBody, h1, h2, h3]

/-- Each sparkle loop iteration appends exactly one particle and keeps the
ceiling and pool capacity. -/
theorem sparkleBody_frame (m : MathEnv) (rnd : ℕ → ℚ) (x y : ℚ)
    (s : ParticleSystem) (i : ℕ) :
    (ParticleSystem.sparkleBody m rnd x y s i).particles.length
      = s.particles.length + 1 ∧
    (ParticleSystem.sparkleBody m rnd x y s i).maxParticles = s.maxParticles ∧
    (ParticleSystem.sparkleBody m rnd x y s i).poolSize = s.poolSize := by
  obtain ⟨h1, h2, h3⟩ := getParticleFromPool_frame s
  simp [ParticleSystem.sparkleBody, h1, h2, h3]

/-- Each confetti loop iteration appends exactly one particle and keeps the
ceiling and pool capacity. -/
theorem confettiBody_frame (m : MathEnv) (rnd : ℕ → ℚ) (x y : ℚ)
    (colors : List String) (s : ParticleSystem) (i : ℕ) :
    (ParticleSystem.confettiBody m rnd x y colors s i).particles.length
      = s.particles.length + 1 ∧
    (ParticleSystem.confettiBody m rnd x y colors s i).maxParticles = s.maxParticles ∧
    (ParticleSystem.confettiBody m rnd x y colors s i).poolSize = s.poolSize := by
  obtain ⟨h1, h2, h3⟩ := getParticleFromPool_frame s
  simp [ParticleSystem.confettiBody, h1, h2, h3]

/-- Folding a body that appends exactly one particle per call over
`List.range n` appends exactly `n` particles and keeps the ceiling and pool
capacity. -/
theorem foldl_range_length (f : ParticleSystem → ℕ → ParticleSystem)
    (hf : ∀ s i, (f s i).particles.length = s.particles.length + 1 ∧
      (f s i).maxParticles = s.maxParticles ∧ (f s i).poolSize = s.poolSize)
    (n : ℕ) (s : ParticleSystem) :
    ((List.range n).foldl f s).particles.length = s.particles.length + n ∧
    ((List.range n).foldl f s).maxParticles = s.maxParticles ∧
    ((List.range n).foldl f s).poolSize = s.poolSize := by
  induction n generalizing s with
  | zero => simp
  | succ k ih =>
    rw [List.range_succ, List.foldl_append]
    obtain ⟨ih1, ih2, ih3⟩ := ih s
    obtain ⟨hf1, hf2, hf3⟩ := hf ((List.range k).foldl f s) k
    simp only [List.foldl_cons, List.foldl_nil]
    exact ⟨by omega, by rw [hf2, ih2], by rw [hf3, ih3]⟩

/-- `createExplosionParticles` appends exactly
`(min count (maxParticles - length)).toNat` particles. -/
theorem createExplosionParticles_length (s : ParticleSystem) (m : MathEnv)
    (rnd : ℕ → ℚ) (x y : ℚ) (count : ℤ) (colors : List String) :
    (s.createExplosionParticles m rnd x y count colors).particles.length =
      s.particles.length +
        (min count (s.maxParticles - (s.particles.length : ℤ))).toNat ∧
    (s.createExplosionParticles m rnd x y count colors).maxParticles
      = s.maxParticles ∧
    (s.createExplosionParticles m rnd x y count colors).poolSize = s.poolSize := by
  unfold ParticleSystem.createExplosionParticles
  exact foldl_range_length _ (explosionBody_frame m rnd x y colors _) _ s

/-- `createSparkleParticles` appends exactly
`(min count (maxParticles - length)).toNat` particles. -/
theorem createSparkleParticles_length (s : ParticleSystem) (m : MathEnv)
    (rnd : ℕ → ℚ) (x y : ℚ) (count : ℤ) :
    (s.createSparkleParticles m rnd x y count).particles.length =
      s.particles.length +
        (min count (s.maxParticles - (s.particles.length : ℤ))).toNat ∧
    (s.createSparkleParticles m rnd x y count).maxParticles = s.maxParticles ∧
    (s.createSparkleParticles m rnd x y count).poolSize = s.poolSize := by
  unfold ParticleSystem.createSparkleParticles
  exact foldl_range_length _ (sparkleBody_frame m rnd x y) _ s

/-- `createConfettiParticles` appends exactly
`(min count (maxParticles - length)).toNat` particles. -/
theorem createConfettiParticles_length (s : ParticleSystem) (m : MathEnv)
    (rnd : ℕ → ℚ) (x y : ℚ) (count : ℤ) (colors : List String) :
    (s.createConfettiParticles m rnd x y count colors).particles.length =
      s.particles.length +
        (min count (s.maxParticles - (s.particles.length : ℤ))).toNat ∧
    (s.createConfettiParticles m rnd x y count colors).maxParticles
      = s.maxParticles ∧
    (s.createConfettiParticles m rnd x y count colors).poolSize = s.poolSize := by
  unfold ParticleSystem.createConfettiParticles
  exact foldl_range_length _ (confettiBody_frame m rnd x y colors) _ s

/-- `createTrailParticle` appends exactly one particle below the ceiling
and is a no-op at or above it. -/
theorem createTrailParticle_length (s : ParticleSystem) (rnd : ℕ → ℚ)
    (x y vx vy : ℚ) :
    (((s.particles.length : ℤ) < s.maxParticles →
      (s.createTrailParticle rnd x y vx vy).particles.length
        = s.particles.length + 1) ∧
    ((s.particles.length : ℤ) ≥ s.maxParticles →
      s.createTrailParticle rnd x y vx vy = s)) ∧
    (s.createTrailParticle rnd x y vx vy).maxParticles = s.maxParticles ∧
    (s.createTrailParticle rnd x y vx vy).poolSize = s.poolSize := by
  obtain ⟨h1, h2, h3⟩ := getParticleFromPool_frame s
  unfold ParticleSystem.createTrailParticle
  constructor
  · constructor
    · intro hlt
      rw [if_neg (by omega)]
      simp [h1]
    · intro hge
      rw [if_pos hge]
  · split
    · exact ⟨rfl, rfl⟩
    · simp [h2, h3]

/-- One request to the particle system, carrying its own `Math.random()`
stream and arguments; used to quantify over arbitrary call sequences. -/
inductive SpawnCall where
  | trail (rnd : ℕ → ℚ) (x y vx vy : ℚ)
  | explosion (rnd : ℕ → ℚ) (x y : ℚ) (count : ℤ) (colors : List String)
  | sparkle (rnd : ℕ → ℚ) (x y : ℚ) (count : ℤ)
  | confetti (rnd : ℕ → ℚ) (x y : ℚ) (count : ℤ) (colors : List String)

/-- Dispatch one spawn request to the corresponding source operation. -/
def execSpawn (m : MathEnv) (s : ParticleSystem) : SpawnCall → ParticleSystem
  | .trail rnd x y vx vy => s.createTrailParticle rnd x y vx vy
  | .explosion rnd x y count colors => s.createExplosionParticles m rnd x y count colors
  | .sparkle rnd x y count => s.createSparkleParticles m rnd x y count
  | .confetti rnd x y count colors => s.createConfettiParticles m rnd x y count colors

/-- Run a sequence of spawn requests left to right. -/
def execSpawns (m : MathEnv) (calls : List SpawnCall) (s : ParticleSystem) :
    ParticleSystem :=
  calls.foldl (execSpawn m) s

/-- A single spawn request preserves `particles.length ≤ maxParticles` and
does not change `maxParticles`. -/
theorem execSpawn_capacity (m : MathEnv) (s : ParticleSystem) (c : SpawnCall)
    (h : (s.particles.length : ℤ) ≤ s.maxParticles) :
    ((execSpawn m s c).particles.length : ℤ) ≤ (execSpawn m s c).maxParticles ∧
    (execSpawn m s c).maxParticles = s.maxParticles := by
  cases c with
  | trail rnd x y vx vy =>
    obtain ⟨⟨hlt, hge⟩, hmax, -⟩ := createTrailParticle_length s rnd x y vx vy
    simp only [execSpawn]
    refine ⟨?_, hmax⟩
    by_cases hc : (s.particles.length : ℤ) < s.maxParticles
    · rw [hlt hc, hmax]
      omega
    · rw [hge (by omega)]
      exact h
  | explosion rnd x y count colors =>
    obtain ⟨hlen, hmax, -⟩ := createExplosionParticles_length s m rnd x y count colors
    rw [execSpawn, hlen, hmax]
    refine ⟨?_, rfl⟩
    push_cast
    omega
  | sparkle rnd x y count =>
    obtain ⟨hlen, hmax, -⟩ := createSparkleParticles_length s m rnd x y count
    rw [execSpawn, hlen, hmax]
    refine ⟨?_, rfl⟩
    push_cast
    omega
  | confetti rnd x y count colors =>
    obtain ⟨hlen, hmax, -⟩ := createConfettiParticles_length s m rnd x y count colors
    rw [execSpawn, hlen, hmax]
    refine ⟨?_, rfl⟩
    push_cast
    omega

/-- A system with 195 active particles and the default 200-particle
ceiling, the initial state of the spec's capacity-clamp scenario. -/
def s195 : ParticleSystem :=
  { ParticleSystem.init 0 with
    particles := List.replicate 195 (Particle.new 0 0 0 0 1 "#FFFFFF" "trail") }

/-- Claim C1: under any sequence of spawn calls with a fixed ceiling, the
active collection never exceeds `maxParticles` (each multi-particle spawn
computes `actualCount = min(requested, maxParticles - size)` once and
appends exactly that many), spawns never change the ceiling, and in the
scenario with `maxParticles = 200` and 195 active particles an explosion
request of 20 adds exactly 5 particles, reaching size 200. -/
theorem claim_C1_capacity (m : MathEnv) (calls : List SpawnCall)
    (s : ParticleSystem) (h : (s.particles.length : ℤ) ≤ s.maxParticles) :
    (((execSpawns m calls s).particles.length : ℤ)
        ≤ (execSpawns m calls s).maxParticles) ∧
    ((execSpawns m calls s).maxParticles = s.maxParticles) ∧
    (∀ rnd : ℕ → ℚ, ∀ x y : ℚ, ∀ colors : List String,
      s.maxParticles = 200 → s.particles.length = 195 →
      (s.createExplosionParticles m rnd x y 20 colors).particles.length
        = s.particles.length + 5 ∧
      (s.createExplosionParticles m rnd x y 20 colors).particles.length = 200) := by
  refine ⟨?_, ?_, ?_⟩
  case refine_3 =>
    intro rnd x y colors h200 h195
    obtain ⟨hlen, -, -⟩ := createExplosionParticles_length s m rnd x y 20 colors
    rw [hlen, h200, h195]
    constructor <;> norm_num <;> omega
  all_goals
    induction calls generalizing s with
    | nil => simp [execSpawns, h]
    | cons c rest ih =>
      obtain ⟨h1, h2⟩ := execSpawn_capacity m s c h
      have := ih (execSpawn m s c) h1
      simp only [execSpawns, List.foldl_cons] at *
      omega

/-- Claim C1 witness: the capacity bound and the 195-to-200 scenario at the
concrete state `s195`, with the hypothesis discharged by evaluation. -/
theorem claim_C1_capacity_witness :
    ((s195.createExplosionParticles ⟨fun _ => 0, fun _ => 0, 0⟩ (fun _ => 0)
      100 100 20 []).particles.length = 200) :=
  ((claim_C1_capacity ⟨fun _ => 0, fun _ => 0, 0⟩ [] s195
      (by show ((List.replicate 195 (Particle.new 0 0 0 0 1 "#FFFFFF" "trail")).length : ℤ) ≤ 200
          rw [List.length_replicate]
          norm_num)).2.2
    (fun _ => 0) 100 100 [] rfl
    (by show (List.replicate 195 (Particle.new 0 0 0 0 1 "#FFFFFF" "trail")).length = 195
        rw [List.length_replicate])).2

/-- Claim C7: `getParticleFromPool` is total: it pops the last pool element
and counts a pool hit when the pool is non-empty, else constructs the fresh
default particle and counts a pool miss; `returnParticleToPool` pushes the
particle back after setting only `life = 0` and `alpha = 1.0` (all other
fields unchanged) when the pool is below its capacity, fixed at 300 by the
constructor, and otherwise drops it, leaving the state unchanged. -/
theorem claim_C7_pool (s : ParticleSystem) (p : Particle) :
    (∀ h : s.particlePool ≠ [],
      s.getParticleFromPool =
        (s.particlePool.getLast h,
         { s with
           particlePool := s.particlePool.dropLast,
           poolHits := s.poolHits + 1 })) ∧
    (s.particlePool = [] →
      s.getParticleFromPool =
        (Particle.new 0 0 0 0 0 "#FFFFFF" "trail",
         { s with poolMisses := s.poolMisses + 1 })) ∧
    (s.particlePool.length < s.poolSize →
      s.returnParticleToPool p =
        { s with particlePool := s.particlePool ++ [{ p with life := 0, alpha := 1 }] }) ∧
    (¬ s.particlePool.length < s.poolSize → s.returnParticleToPool p = s) ∧
    (({ p with life := 0, alpha := 1 } : Particle).x = p.x ∧
     ({ p with life := 0, alpha := 1 } : Particle).y = p.y ∧
     ({ p with life := 0, alpha := 1 } : Particle).velocityX = p.velocityX ∧
     ({ p with life := 0, alpha := 1 } : Particle).velocityY = p.velocityY ∧
     ({ p with life := 0, alpha := 1 } : Particle).color = p.color ∧
     ({ p with life := 0, alpha := 1 } : Particle).type = p.type ∧
     ({ p with life := 0, alpha := 1 } : Particle).size = p.size) ∧
    ((s.returnParticleToPool p).poolSize = s.poolSize ∧
     s.getParticleFromPool.2.poolSize = s.poolSize) ∧
    (∀ now : ℤ, (ParticleSystem.init now).poolSize = 300 ∧
      (ParticleSystem.init now).particlePool.length = 300) := by
  refine ⟨?_, ?_, ?_, ?_,
    ⟨rfl, rfl, rfl, rfl, rfl, rfl, rfl⟩, ⟨?_, ?_⟩, ?_⟩
  · intro h
    rw [ParticleSystem.getParticleFromPool, dif_pos h]
  · intro h
    rw [ParticleSystem.getParticleFromPool, dif_neg (by simp [h])]
  · intro h
    rw [ParticleSystem.returnParticleToPool, if_pos h]
  · intro h
    rw [ParticleSystem.returnParticleToPool, if_neg h]
  · rw [ParticleSystem.returnParticleToPool]
    split <;> rfl
  · exact (getParticleFromPool_frame s).2.2
  · intro now
    exact ⟨rfl, by rw [show (ParticleSystem.init now).particlePool
      = List.replicate 300 (Particle.new 0 0 0 0 0 "#FFFFFF" "trail") from rfl,
      List.length_replicate]⟩

/-- Claim C7 witness: the pool contract applied to the empty-pool state and
to a below-capacity state, with every premise discharged concretely. -/
theorem claim_C7_pool_witness :
    ({ ParticleSystem.init 0 with particlePool := [] } : ParticleSystem).getParticleFromPool =
      (Particle.new 0 0 0 0 0 "#FFFFFF" "trail",
       { ({ ParticleSystem.init 0 with particlePool := [] } : ParticleSystem) with
         poolMisses := ({ ParticleSystem.init 0 with particlePool := [] } :
           ParticleSystem).poolMisses + 1 }) ∧
    ({ ParticleSystem.init 0 with particlePool := [] } : ParticleSystem).returnParticleToPool
        (Particle.new 7 8 9 10 11 "#FF8C00" "confetti") =
      { ({ ParticleSystem.init 0 with particlePool := [] } : ParticleSystem) with
        particlePool := [{ Particle.new 7 8 9 10 11 "#FF8C00" "confetti" with
          life := 0, alpha := 1 }] } :=
  ⟨(claim_C7_pool { ParticleSystem.init 0 with particlePool := [] }
      (Particle.new 7 8 9 10 11 "#FF8C00" "confetti")).2.1 rfl,
   by
    have h := (claim_C7_pool { ParticleSystem.init 0 with particlePool := [] }
      (Particle.new 7 8 9 10 11 "#FF8C00" "confetti")).2.2.1 (by decide)
    rw [h]
    rfl⟩

/-- `updatePerformanceStats()` (game.js lines 185-210) with `now` the
`Date.now()` reading: increment the frame counter; once ≥ 1000 ms have
passed since `lastFPSCheck`, snapshot `currentFPS`, reset counter and
checkpoint, and adapt `maxParticles` (a `console.log`-only block is
dropped). -/
def ParticleSystem.updatePerformanceStats (s : ParticleSystem) (now : ℤ) :
    ParticleSystem :=
  let s1 := { s with frameCount := s.frameCount + 1 }
  if now - s1.lastFPSCheck ≥ 1000 then
    let s2 := { s1 with
      currentFPS := s1.frameCount, frameCount := 0, lastFPSCheck := now }
    if s2.currentFPS < 45 then
      { s2 with maxParticles := max 100 (s2.maxParticles - 20) }
    else if s2.currentFPS > 55 ∧ s2.maxParticles < 200 then
      { s2 with maxParticles := min 200 (s2.maxParticles + 10) }
    else
      s2
  else
    s1

/-- A governor checkpoint keeps `maxParticles` within `[100, 200]`. -/
theorem updatePerformanceStats_bounds (s : ParticleSystem) (now : ℤ)
    (h100 : 100 ≤ s.maxParticles) (h200 : s.maxParticles ≤ 200) :
    100 ≤ (s.updatePerformanceStats now).maxParticles ∧
    (s.updatePerformanceStats now).maxParticles ≤ 200 := by
  simp only [ParticleSystem.updatePerformanceStats]
  split_ifs <;> simp only <;> omega

/-- Repeated governor calls at a list of `Date.now()` readings; models the
per-frame `update()` entry into `updatePerformanceStats`. -/
def runGovernor (nows : List ℤ) (s : ParticleSystem) : ParticleSystem :=
  nows.foldl ParticleSystem.updatePerformanceStats s

/-- Claim C6: the governor changes `maxParticles` only at checkpoints where
at least 1000 ms of wall-clock time has elapsed; at a checkpoint
`currentFPS` is set to the accumulated frame count and the counter resets,
then `maxParticles` drops by 20 (floor 100) when `currentFPS < 45`, rises
by 10 (ceiling 200) when `currentFPS > 55` and `maxParticles < 200`, and is
unchanged in the dead band; starting from 200 it stays in `[100, 200]`
under any call sequence. -/
theorem claim_C6_governor (s : ParticleSystem) (now : ℤ) :
    (now - s.lastFPSCheck < 1000 →
      s.updatePerformanceStats now = { s with frameCount := s.frameCount + 1 }) ∧
    (now - s.lastFPSCheck ≥ 1000 →
      (s.updatePerformanceStats now).currentFPS = s.frameCount + 1 ∧
      (s.updatePerformanceStats now).frameCount = 0 ∧
      (s.updatePerformanceStats now).lastFPSCheck = now ∧
      (s.updatePerformanceStats now).maxParticles =
        (if s.frameCount + 1 < 45 then max 100 (s.maxParticles - 20)
         else if s.frameCount + 1 > 55 ∧ s.maxParticles < 200 then
           min 200 (s.maxParticles + 10)
         else s.maxParticles)) ∧
    (now - s.lastFPSCheck ≥ 1000 → 45 ≤ s.frameCount + 1 → s.frameCount + 1 ≤ 55 →
      (s.updatePerformanceStats now).maxParticles = s.maxParticles) ∧
    (∀ nows : List ℤ, s.maxParticles = 200 →
      100 ≤ (runGovernor nows s).maxParticles ∧
      (runGovernor nows s).maxParticles ≤ 200) := by
  refine ⟨?_, ?_, ?_, ?_⟩
  · intro h
    simp only [ParticleSystem.updatePerformanceStats]
    rw [if_neg (by omega)]
  · intro h
    simp only [ParticleSystem.updatePerformanceStats]
    rw [if_pos h]
    refine ⟨?_, ?_, ?_, ?_⟩ <;> split_ifs <;> rfl
  · intro h h45 h55
    simp only [ParticleSystem.updatePerformanceStats]
    rw [if_pos h, if_neg (by omega), if_neg (by push_neg; intro hgt; omega)]
  · intro nows h200
    have hinv : ∀ t : ParticleSystem, 100 ≤ t.maxParticles → t.maxParticles ≤ 200 →
        100 ≤ (runGovernor nows t).maxParticles ∧
        (runGovernor nows t).maxParticles ≤ 200 := by
      induction nows with
      | nil => intro t ht1 ht2; exact ⟨ht1, ht2⟩
      | cons a rest ih =>
        intro t ht1 ht2
        obtain ⟨hb1, hb2⟩ := updatePerformanceStats_bounds t a ht1 ht2
        exact ih (t.updatePerformanceStats a) hb1 hb2
    exact hinv s (by omega) (by omega)

/-- Claim C6 witness: the governor applied at the initial state with a
checkpoint-crossing timestamp, all premises discharged concretely. -/
theorem claim_C6_governor_witness :
    ((ParticleSystem.init 0).updatePerformanceStats 1000).currentFPS = 1 ∧
    ((ParticleSystem.init 0).updatePerformanceStats 1000).maxParticles = 180 := by
  have h := (claim_C6_governor (ParticleSystem.init 0) 1000).2.1 (by decide)
  obtain ⟨h1, -, -, h4⟩ := h
  refine ⟨h1, ?_⟩
  rw [h4]
  norm_num [ParticleSystem.init]

/-- `cleanup()` (game.js lines 420-434): one pass over the active list,
accumulating survivors into `aliveParticles` (in order) and returning every
dead particle to the pool; finally the active list is replaced by the
survivors. -/
def ParticleSystem.cleanup (s : ParticleSystem) : ParticleSystem :=
  let r := s.particles.foldl
    (fun (acc : List Particle × ParticleSystem) particle =>
      if particle.isDead then
        (acc.1, acc.2.returnParticleToPool particle)
      else
        (acc.1 ++ [particle], acc.2))
    ([], s)
  { r.2 with particles := r.1 }

/-- `ParticleSystem.update(deltaTime)` (game.js lines 323-334): advance the
performance governor, call `particle.update(deltaTime)` on every active
particle, then `cleanup()`. -/
def ParticleSystem.update (s : ParticleSystem) (m : MathEnv) (deltaTime : ℚ)
    (now : ℤ) : ParticleSystem :=
  let s1 := s.updatePerformanceStats now
  let s2 := { s1 with particles := s1.particles.map (Particle.update m deltaTime) }
  s2.cleanup

/-- The cleanup fold, over any particle list and any accumulator: the first
component collects exactly the non-dead particles in order, and the second
component returns exactly the dead ones to the pool, in order. -/
theorem cleanup_foldl_spec (ps : List Particle) (acc : List Particle)
    (t : ParticleSystem) :
    ps.foldl
      (fun (a : List Particle × ParticleSystem) particle =>
        if particle.isDead then
          (a.1, a.2.returnParticleToPool particle)
        else
          (a.1 ++ [particle], a.2))
      (acc, t) =
    (acc ++ ps.filter (fun p => ! p.isDead),
     (ps.filter (fun p => p.isDead)).foldl ParticleSystem.returnParticleToPool t) := by
  induction ps generalizing acc t with
  | nil => simp
  | cons q rest ih =>
    by_cases hq : q.isDead
    · simp [hq, ih]
    · simp [hq, ih]

/-- `returnParticleToPool` changes only the `particlePool` field. -/
theorem returnParticleToPool_frame (s : ParticleSystem) (p : Particle) :
    (s.returnParticleToPool p).particles = s.particles ∧
    (s.returnParticleToPool p).maxParticles = s.maxParticles ∧
    (s.returnParticleToPool p).poolSize = s.poolSize := by
  rw [ParticleSystem.returnParticleToPool]
  split <;> simp

/-- The pool after one `returnParticleToPool`, as a pure function of the
previous pool. -/
theorem returnParticleToPool_pool (t : ParticleSystem) (p : Particle) :
    (t.returnParticleToPool p).particlePool =
      (if t.particlePool.length < t.poolSize then
        t.particlePool ++ [{ p with life := 0, alpha := 1 }]
      else t.particlePool) := by
  rw [ParticleSystem.returnParticleToPool]
  split_ifs <;> rfl

/-- Folding `returnParticleToPool` over a list acts on the pool alone:
the pool evolves by the per-particle push-if-below-capacity rule and
`poolSize` is untouched. -/
theorem foldl_return_pool (ds : List Particle) (t : ParticleSystem) :
    ((ds.foldl ParticleSystem.returnParticleToPool t).particlePool =
      ds.foldl
        (fun pool p =>
          if pool.length < t.poolSize then
            pool ++ [{ p with life := 0, alpha := 1 }]
          else pool)
        t.particlePool) ∧
    (ds.foldl ParticleSystem.returnParticleToPool t).poolSize = t.poolSize := by
  induction ds generalizing t with
  | nil => exact ⟨rfl, rfl⟩
  | cons d rest ih =>
    simp only [List.foldl_cons]
    obtain ⟨ih1, ih2⟩ := ih (t.returnParticleToPool d)
    have hps : (t.returnParticleToPool d).poolSize = t.poolSize :=
      (returnParticleToPool_frame t d).2.2
    constructor
    · rw [ih1, hps, returnParticleToPool_pool]
    · rw [ih2, hps]

/-- `cleanup` in closed form: survivors (in order) and the pool evolution. -/
theorem cleanup_spec (s : ParticleSystem) :
    s.cleanup.particles = s.particles.filter (fun p => ! p.isDead) ∧
    s.cleanup.particlePool =
      ((s.particles.filter (fun p => p.isDead)).foldl
        ParticleSystem.returnParticleToPool s).particlePool := by
  simp only [ParticleSystem.cleanup]
  rw [cleanup_foldl_spec]
  exact ⟨by simp, rfl⟩

/-- `updatePerformanceStats` touches only the frame/FPS bookkeeping and the
ceiling, never the particle lists. -/
theorem updatePerformanceStats_frame (s : ParticleSystem) (now : ℤ) :
    (s.updatePerformanceStats now).particles = s.particles ∧
    (s.updatePerformanceStats now).particlePool = s.particlePool ∧
    (s.updatePerformanceStats now).poolSize = s.poolSize := by
  simp only [ParticleSystem.updatePerformanceStats]
  split_ifs <;> simp

/-- Claim C4: after `ParticleSystem.update(deltaTime)`, the active
collection is exactly the non-dead subset of the updated previous particles
in their original relative order; every dead one has been passed to
`returnParticleToPool` (the pool receives them, reset, in order, while
below capacity); consequently every remaining particle has `life > 0`. -/
theorem claim_C4_update_cleanup (s : ParticleSystem) (m : MathEnv)
    (dt : ℚ) (now : ℤ) :
    ((s.update m dt now).particles =
      (s.particles.map (Particle.update m dt)).filter (fun p => ! p.isDead)) ∧
    ((s.update m dt now).particlePool =
      ((s.particles.map (Particle.update m dt)).filter (fun p => p.isDead)).foldl
        (fun pool p =>
          if pool.length < s.poolSize then
            pool ++ [{ p with life := 0, alpha := 1 }]
          else pool)
        s.particlePool) ∧
    (∀ p ∈ (s.update m dt now).particles, 0 < p.life) := by
  obtain ⟨hp, hpool, hps⟩ := updatePerformanceStats_frame s now
  have hupd : s.update m dt now =
      ({ s.updatePerformanceStats now with
        particles := (s.updatePerformanceStats now).particles.map
          (Particle.update m dt) } : ParticleSystem).cleanup := rfl
  set s2 : ParticleSystem :=
    { s.updatePerformanceStats now with
      particles := (s.updatePerformanceStats now).particles.map
        (Particle.update m dt) } with hs2
  obtain ⟨hc1, hc2⟩ := cleanup_spec s2
  have hs2parts : s2.particles = s.particles.map (Particle.update m dt) := by
    rw [hs2]
    simp only
    rw [hp]
  have hs2pool : s2.particlePool = s.particlePool := hpool
  have hs2ps : s2.poolSize = s.poolSize := hps
  refine ⟨?_, ?_, ?_⟩
  · rw [hupd, hc1, hs2parts]
  · rw [hupd, hc2, hs2parts]
    obtain ⟨hfp, -⟩ :=
      foldl_return_pool ((s.particles.map (Particle.update m dt)).filter
        (fun p => p.isDead)) s2
    rw [hfp, hs2pool, hs2ps]
  · intro p hpmem
    rw [hupd, hc1] at hpmem
    have hmem := List.of_mem_filter hpmem
    simp only [Particle.isDead, Bool.not_eq_true'] at hmem
    simpa using of_decide_eq_false hmem

/-- Claim C4 witness: the survivor equation extracted at a concrete state
(two trail particles, one of which dies under `update(100)`). -/
theorem claim_C4_update_cleanup_witness :
    (({ ParticleSystem.init 0 with
        particles := [Particle.new 0 0 0 0 1 "#FFFFFF" "trail",
                      Particle.new 0 0 0 0 500 "#FFFFFF" "trail"] } :
      ParticleSystem).update ⟨fun _ => 0, fun _ => 0, 0⟩ 100 0).particles =
      (([Particle.new 0 0 0 0 1 "#FFFFFF" "trail",
         Particle.new 0 0 0 0 500 "#FFFFFF" "trail"]).map
        (Particle.update ⟨fun _ => 0, fun _ => 0, 0⟩ 100)).filter
        (fun p => ! p.isDead) :=
  (claim_C4_update_cleanup
    { ParticleSystem.init 0 with
      particles := [Particle.new 0 0 0 0 1 "#FFFFFF" "trail",
                    Particle.new 0 0 0 0 500 "#FFFFFF" "trail"] }
    ⟨fun _ => 0, fun _ => 0, 0⟩ 100 0).1

/-- One call on the 2D drawing context, in the order issued; the drawing
surface is modelled as the trace of these calls. -/
inductive CtxOp where
  | save
  | restore
  | translate (dx dy : ℚ)
  | globalAlpha (a : ℚ)
  | fillStyle (c : String)
  | beginPath
  | arc (x y r a0 a1 : ℚ)
  | fill
  | fillRect (x y w h : ℚ)
  | moveTo (x y : ℚ)
  | lineTo (x y : ℚ)
  | closePath
  | rotate (t : ℚ)
  deriving DecidableEq, Repr

/-- `drawStar(ctx, x, y, size)` (game.js lines 98-118): the ten alternating
outer/inner star vertices at angle step `π/5`, as a path trace. -/
def drawStar (m : MathEnv) (x y size : ℚ) : List CtxOp :=
  CtxOp.beginPath ::
  ((List.range 10).map (fun i =>
    let radius := if i % 2 = 0 then size else size * 0.5
    let angle := (i : ℚ) * m.pi / 5
    let starX := x + m.cos angle * radius
    let starY := y + m.sin angle * radius
    if i = 0 then CtxOp.moveTo starX starY else CtxOp.lineTo starX starY)) ++
  [CtxOp.closePath, CtxOp.fill]

/-- `Particle.render(ctx)` (game.js lines 50-96) as a context-call trace:
no-op when dead, otherwise a save/alpha prelude, the kind-dispatched shape
(default falls back to the trail circle), and a restore. -/
def Particle.render (m : MathEnv) (p : Particle) : List CtxOp :=
  if p.isDead then []
  else
    [CtxOp.save, CtxOp.globalAlpha p.alpha] ++
    (if p.type = "trail" then
      [CtxOp.fillStyle p.color, CtxOp.beginPath,
       CtxOp.arc p.x p.y p.size 0 (m.pi * 2), CtxOp.fill]
    else if p.type = "explosion" then
      [CtxOp.fillStyle p.color,
       CtxOp.fillRect (p.x - p.size / 2) (p.y - p.size / 2) p.size p.size]
    else if p.type = "sparkle" then
      CtxOp.fillStyle p.color :: drawStar m p.x p.y p.size
    else if p.type = "confetti" then
      [CtxOp.fillStyle p.color, CtxOp.save, CtxOp.translate p.x p.y,
       CtxOp.rotate (p.life * 0.1),
       CtxOp.fillRect (-(p.size / 2)) (-(p.size / 4)) p.size (p.size / 2),
       CtxOp.restore]
    else
      [CtxOp.fillStyle p.color, CtxOp.beginPath,
       CtxOp.arc p.x p.y p.size 0 (m.pi * 2), CtxOp.fill]) ++
    [CtxOp.restore]

/-- The `renderBatches` object (game.js lines 148-153): one bucket per
known kind. -/
structure RenderBatches where
  trail : List Particle
  explosion : List Particle
  sparkle : List Particle
  confetti : List Particle

/-- The loop body of `prepareBatchedRendering` (game.js lines 366-370):
push a non-dead particle into the bucket named by its kind; an unknown kind
has no bucket (`renderBatches[type]` is falsy) and is skipped. -/
def pushBatch (b : RenderBatches) (p : Particle) : RenderBatches :=
  if p.isDead then b
  else if p.type = "trail" then { b with trail := b.trail ++ [p] }
  else if p.type = "explosion" then { b with explosion := b.explosion ++ [p] }
  else if p.type = "sparkle" then { b with sparkle := b.sparkle ++ [p] }
  else if p.type = "confetti" then { b with confetti := b.confetti ++ [p] }
  else b

/-- `prepareBatchedRendering()` (game.js lines 358-371): clear the buckets,
then one pass over the active list. -/
def ParticleSystem.prepareBatchedRendering (s : ParticleSystem) : RenderBatches :=
  s.particles.foldl pushBatch ⟨[], [], [], []⟩

/-- `renderBatch(ctx, type)` (game.js lines 374-418) as a trace: nothing
for an empty batch, else a save, the per-kind draw calls of each batch
member (sparkle and confetti delegate to `Particle.render`), a restore. -/
def renderBatch (m : MathEnv) (batch : List Particle) (type : String) :
    List CtxOp :=
  if batch.length = 0 then []
  else
    CtxOp.save ::
    (if type = "trail" then
      batch.flatMap (fun p =>
        [CtxOp.globalAlpha p.alpha, CtxOp.fillStyle p.color, CtxOp.beginPath,
         CtxOp.arc p.x p.y p.size 0 (m.pi * 2), CtxOp.fill])
    else if type = "explosion" then
      batch.flatMap (fun p =>
        [CtxOp.globalAlpha p.alpha, CtxOp.fillStyle p.color,
         CtxOp.fillRect (p.x - p.size / 2) (p.y - p.size / 2) p.size p.size])
    else if type = "sparkle" then
      batch.flatMap (Particle.render m)
    else if type = "confetti" then
      batch.flatMap (Particle.render m)
    else []) ++
    [CtxOp.restore]

/-- The camera offset passed to `ParticleSystem.render`. -/
structure Camera where
  x : ℚ
  y : ℚ

/-- `ParticleSystem.render(ctx, camera)` (game.js lines 336-355) as a
trace: save, one translation by `(-camera.x, -camera.y)`, the four batches
in the fixed order trail, explosion, confetti, sparkle, restore. -/
def ParticleSystem.render (s : ParticleSystem) (m : MathEnv) (camera : Camera) :
    List CtxOp :=
  let batches := s.prepareBatchedRendering
  CtxOp.save :: CtxOp.translate (-camera.x) (-camera.y) ::
  (renderBatch m batches.trail "trail" ++
   renderBatch m batches.explosion "explosion" ++
   renderBatch m batches.confetti "confetti" ++
   renderBatch m batches.sparkle "sparkle") ++
  [CtxOp.restore]

/-- The batching pass, over any list and accumulator: each bucket collects
exactly the non-dead particles of its kind, in source order. -/
theorem foldl_pushBatch (ps : List Particle) (b : RenderBatches) :
    (ps.foldl pushBatch b).trail =
      b.trail ++ ps.filter (fun p => ! p.isDead && p.type == "trail") ∧
    (ps.foldl pushBatch b).explosion =
      b.explosion ++ ps.filter (fun p => ! p.isDead && p.type == "explosion") ∧
    (ps.foldl pushBatch b).sparkle =
      b.sparkle ++ ps.filter (fun p => ! p.isDead && p.type == "sparkle") ∧
    (ps.foldl pushBatch b).confetti =
      b.confetti ++ ps.filter (fun p => ! p.isDead && p.type == "confetti") := by
  induction ps generalizing b with
  | nil => simp
  | cons q rest ih =>
    simp only [List.foldl_cons, List.filter_cons]
    by_cases hd : q.isDead
    · have hpb : pushBatch b q = b := by rw [pushBatch, if_pos hd]
      rw [hpb]
      obtain ⟨i1, i2, i3, i4⟩ := ih b
      simp [hd, i1, i2, i3, i4]
    · by_cases h1 : q.type = "trail"
      · have hpb : pushBatch b q = { b with trail := b.trail ++ [q] } := by
          rw [pushBatch, if_neg hd, if_pos h1]
        rw [hpb]
        obtain ⟨i1, i2, i3, i4⟩ := ih { b with trail := b.trail ++ [q] }
        simp [hd, h1, i1, i2, i3, i4]
      · by_cases h2 : q.type = "explosion"
        · have hpb : pushBatch b q = { b with explosion := b.explosion ++ [q] } := by
            rw [pushBatch, if_neg hd, if_neg h1, if_pos h2]
          rw [hpb]
          obtain ⟨i1, i2, i3, i4⟩ := ih { b with explosion := b.explosion ++ [q] }
          simp [hd, h1, h2, i1, i2, i3, i4]
        · by_cases h3 : q.type = "sparkle"
          · have hpb : pushBatch b q = { b with sparkle := b.sparkle ++ [q] } := by
              rw [pushBatch, if_neg hd, if_neg h1, if_neg h2, if_pos h3]
            rw [hpb]
            obtain ⟨i1, i2, i3, i4⟩ := ih { b with sparkle := b.sparkle ++ [q] }
            simp [hd, h1, h2, h3, i1, i2, i3, i4]
          · by_cases h4 : q.type = "confetti"
            · have hpb : pushBatch b q = { b with confetti := b.confetti ++ [q] } := by
                rw [pushBatch, if_neg hd, if_neg h1, if_neg h2, if_neg h3, if_pos h4]
              rw [hpb]
              obtain ⟨i1, i2, i3, i4⟩ := ih { b with confetti := b.confetti ++ [q] }
              simp [hd, h1, h2, h3, h4, i1, i2, i3, i4]
            · have hpb : pushBatch b q = b := by
                rw [pushBatch, if_neg hd, if_neg h1, if_neg h2, if_neg h3, if_neg h4]
              rw [hpb]
              obtain ⟨i1, i2, i3, i4⟩ := ih b
              simp [hd, h1, h2, h3, h4, i1, i2, i3, i4]

/-- The non-dead particles of kind `t`, in active-list order: the contents
of the render bucket for `t`. -/
def aliveOfType (s : ParticleSystem) (t : String) : List Particle :=
  s.particles.filter (fun p => ! p.isDead && p.type == t)

/-- Claim C3: `render` first issues a save and a single translation by
`(-camera.x, -camera.y)`, then the draw calls of all non-dead trail,
explosion and confetti particles strictly before the draw calls of any
sparkle particle (the sparkle batch comes last before the final restore),
regardless of position in the active list; dead particles appear in no
batch, and `Particle.render` issues no call for a dead particle. -/
theorem claim_C3_render_order (s : ParticleSystem) (m : MathEnv)
    (camera : Camera) :
    (s.render m camera =
      CtxOp.save :: CtxOp.translate (-camera.x) (-camera.y) ::
      (renderBatch m (aliveOfType s "trail") "trail" ++
       renderBatch m (aliveOfType s "explosion") "explosion" ++
       renderBatch m (aliveOfType s "confetti") "confetti" ++
       renderBatch m (aliveOfType s "sparkle") "sparkle") ++
      [CtxOp.restore]) ∧
    (∀ t : String, ∀ p ∈ aliveOfType s t, (¬ p.isDead = true) ∧ p.type = t) ∧
    (∀ p : Particle, p.isDead → Particle.render m p = []) := by
  obtain ⟨b1, b2, b3, b4⟩ :=
    foldl_pushBatch s.particles (⟨[], [], [], []⟩ : RenderBatches)
  refine ⟨?_, ?_, ?_⟩
  · simp only [ParticleSystem.render, ParticleSystem.prepareBatchedRendering]
    rw [b1, b2, b3, b4]
    simp [aliveOfType]
  · intro t p hp
    have hmem := List.mem_filter.mp hp
    obtain ⟨-, hpred⟩ := hmem
    rw [Bool.and_eq_true] at hpred
    obtain ⟨hnd, hty⟩ := hpred
    refine ⟨?_, ?_⟩
    · rw [Bool.not_eq_true' ] at hnd
      rw [hnd]
      simp
    · exact beq_iff_eq.mp hty
  · intro p hdead
    rw [Particle.render, if_pos hdead]

/-- Claim C3 witness: the no-draw-when-dead fact applied to a concrete dead
particle, and the trace equation at a concrete one-particle system. -/
theorem claim_C3_render_order_witness :
    Particle.render ⟨fun _ => 0, fun _ => 0, 0⟩
      (Particle.new 0 0 0 0 0 "#FFFFFF" "trail") = [] :=
  (claim_C3_render_order (ParticleSystem.init 0) ⟨fun _ => 0, fun _ => 0, 0⟩
    ⟨0, 0⟩).2.2 (Particle.new 0 0 0 0 0 "#FFFFFF" "trail") (by rfl)

/-- The trail-spawning section of `Game.updatePlayer()` (game.js lines
1059-1095), with `Math.sqrt` abstracted as `sq` and the player's position
and dimensions passed in.  Returns the new `trailTimer` and the new
particle system.  Iteration `i` of the spawn loop consumes
`rnd (11*i) .. rnd (11*i+10)`: offsetX, offsetY, the two velocity jitters,
then the seven draws of `createTrailParticle`. -/
def updatePlayerTrail (sq : ℚ → ℚ) (rnd : ℕ → ℚ)
    (px py pw ph vx vy trailTimer : ℚ) (s : ParticleSystem) :
    ℚ × ParticleSystem :=
  if |vx| > 0.5 ∨ |vy| > 0.5 then
    let movementIntensity := sq (vx * vx + vy * vy)
    let trailFrequency := min 1 (movementIntensity / 3)
    let timer := trailTimer + trailFrequency
    if timer ≥ 1 then
      let numTrailPoints := (⌈movementIntensity / 2⌉).toNat
      (0,
       (List.range numTrailPoints).foldl
         (fun t i =>
           let offsetX := (rnd (11 * i) - 0.5) * pw * 0.8
           let offsetY := (rnd (11 * i + 1) - 0.5) * ph * 0.8
           let trailX := px + pw / 2 + offsetX
           let trailY := py + ph / 2 + offsetY
           t.createTrailParticle (fun k => rnd (11 * i + 4 + k)) trailX trailY
             (vx + (rnd (11 * i + 2) - 0.5) * 2)
             (vy + (rnd (11 * i + 3) - 0.5) * 2))
         s)
    else
      (timer, s)
  else
    (0, s)

/-- Folding a capacity-guarded one-particle spawn over `List.range n`: the
ceiling is unchanged and the final count is the initial count when already
at or above the ceiling, else `min (count + n) maxParticles`. -/
theorem foldl_range_guarded (f : ParticleSystem → ℕ → ParticleSystem)
    (hf : ∀ s i,
      (((s.particles.length : ℤ) < s.maxParticles →
        (f s i).particles.length = s.particles.length + 1 ∧
        (f s i).maxParticles = s.maxParticles) ∧
      ((s.particles.length : ℤ) ≥ s.maxParticles → f s i = s)))
    (n : ℕ) (s : ParticleSystem) :
    ((List.range n).foldl f s).maxParticles = s.maxParticles ∧
    (((List.range n).foldl f s).particles.length : ℤ) =
      (if (s.particles.length : ℤ) ≥ s.maxParticles then
        (s.particles.length : ℤ)
      else min ((s.particles.length : ℤ) + n) s.maxParticles) := by
  induction n with
  | zero =>
    constructor
    · rfl
    · simp only [List.range_zero, List.foldl_nil]
      split_ifs <;> omega
  | succ k ih =>
    obtain ⟨ihm, ihl⟩ := ih
    rw [List.range_succ, List.foldl_append, List.foldl_cons, List.foldl_nil]
    set t := (List.range k).foldl f s with ht
    obtain ⟨hbelow, habove⟩ := hf t k
    by_cases hc : (t.particles.length : ℤ) < t.maxParticles
    · obtain ⟨hl1, hm1⟩ := hbelow hc
      constructor
      · rw [hm1, ihm]
      · rw [hl1]
        push_cast
        rw [ihm] at hc
        split_ifs at ihl ⊢ <;> omega
    · rw [habove (by omega)]
      constructor
      · exact ihm
      · rw [ihm] at hc
        split_ifs at ihl ⊢ <;> omega

/-- When the gate is open but the accumulated throttle frequency keeps the
timer below 1, the step only advances the timer and spawns nothing. -/
theorem updatePlayerTrail_noFire (sq : ℚ → ℚ) (rnd : ℕ → ℚ)
    (px py pw ph vx vy tt : ℚ) (s : ParticleSystem)
    (hmov : |vx| > 0.5 ∨ |vy| > 0.5)
    (hlt : tt + min 1 (sq (vx * vx + vy * vy) / 3) < 1) :
    updatePlayerTrail sq rnd px py pw ph vx vy tt s
      = (tt + min 1 (sq (vx * vx + vy * vy) / 3), s) := by
  rw [updatePlayerTrail, if_pos hmov, if_neg (not_le.mpr hlt)]

/-- When the gate is open and the throttle timer reaches 1, the step issues
`ceil(intensity/2)` capacity-guarded single spawns: the resulting count is
the old count at or above the ceiling, else `min (count + ceil(intensity/2))
maxParticles`. -/
theorem updatePlayerTrail_fire_length (sq : ℚ → ℚ) (rnd : ℕ → ℚ)
    (px py pw ph vx vy tt : ℚ) (s : ParticleSystem)
    (hmov : |vx| > 0.5 ∨ |vy| > 0.5)
    (hge : tt + min 1 (sq (vx * vx + vy * vy) / 3) ≥ 1) :
    ((updatePlayerTrail sq rnd px py pw ph vx vy tt s).2.particles.length : ℤ) =
      (if (s.particles.length : ℤ) ≥ s.maxParticles then
        (s.particles.length : ℤ)
      else
        min ((s.particles.length : ℤ) + (⌈sq (vx * vx + vy * vy) / 2⌉).toNat)
          s.maxParticles) := by
  have hbody : ∀ rnd2 : ℕ → ℚ, ∀ x y wx wy : ℚ, ∀ t : ParticleSystem,
      (((t.particles.length : ℤ) < t.maxParticles →
        (t.createTrailParticle rnd2 x y wx wy).particles.length
          = t.particles.length + 1) ∧
      ((t.particles.length : ℤ) ≥ t.maxParticles →
        t.createTrailParticle rnd2 x y wx wy = t)) := by
    intro rnd2 x y wx wy t
    obtain ⟨⟨hlt, hge2⟩, -, -⟩ := createTrailParticle_length t rnd2 x y wx wy
    exact ⟨hlt, hge2⟩
  rw [updatePlayerTrail, if_pos hmov, if_pos hge]
  have hfold := foldl_range_guarded
    (fun t i =>
      let offsetX := (rnd (11 * i) - 0.5) * pw * 0.8
      let offsetY := (rnd (11 * i + 1) - 0.5) * ph * 0.8
      let trailX := px + pw / 2 + offsetX
      let trailY := py + ph / 2 + offsetY
      t.createTrailParticle (fun k => rnd (11 * i + 4 + k)) trailX trailY
        (vx + (rnd (11 * i + 2) - 0.5) * 2)
        (vy + (rnd (11 * i + 3) - 0.5) * 2))
    (fun t i => by
      refine ⟨?_, ?_⟩
      · intro hc
        obtain ⟨h1, -⟩ := hbody (fun k => rnd (11 * i + 4 + k)) _ _ _ _ t
        refine ⟨h1 hc, ?_⟩
        obtain ⟨-, h2, -⟩ := createTrailParticle_length t
          (fun k => rnd (11 * i + 4 + k)) _ _ _ _
        exact h2
      · intro hc
        obtain ⟨-, h2⟩ := hbody (fun k => rnd (11 * i + 4 + k)) _ _ _ _ t
        exact h2 hc)
    ((⌈sq (vx * vx + vy * vy) / 2⌉).toNat) s
  exact hfold.2

/-- Claim C9, amended: with both player-velocity components of absolute
value at most 0.5 the player-update step spawns nothing and resets the
trail timer; each triggered `createTrailParticle` call spawns exactly one
particle below the ceiling and is a silent no-op at capacity; with the gate
open the step spawns nothing while the throttle timer stays below 1, and a
step whose timer reaches 1 issues `ceil(intensity/2)` capacity-guarded
single spawns (not exactly one per step). -/
theorem claim_C9_trail_gate (sq : ℚ → ℚ) (rnd : ℕ → ℚ)
    (px py pw ph vx vy tt : ℚ) (s : ParticleSystem) :
    (|vx| ≤ 0.5 → |vy| ≤ 0.5 →
      updatePlayerTrail sq rnd px py pw ph vx vy tt s = (0, s)) ∧
    (∀ rnd2 : ℕ → ℚ, ∀ x y wx wy : ℚ,
      (((s.particles.length : ℤ) < s.maxParticles →
        (s.createTrailParticle rnd2 x y wx wy).particles.length
          = s.particles.length + 1) ∧
      ((s.particles.length : ℤ) ≥ s.maxParticles →
        s.createTrailParticle rnd2 x y wx wy = s))) ∧
    ((|vx| > 0.5 ∨ |vy| > 0.5) →
      tt + min 1 (sq (vx * vx + vy * vy) / 3) < 1 →
      (updatePlayerTrail sq rnd px py pw ph vx vy tt s).2 = s) ∧
    ((|vx| > 0.5 ∨ |vy| > 0.5) →
      tt + min 1 (sq (vx * vx + vy * vy) / 3) ≥ 1 →
      ((updatePlayerTrail sq rnd px py pw ph vx vy tt s).2.particles.length : ℤ) =
        (if (s.particles.length : ℤ) ≥ s.maxParticles then
          (s.particles.length : ℤ)
        else
          min ((s.particles.length : ℤ) + (⌈sq (vx * vx + vy * vy) / 2⌉).toNat)
            s.maxParticles)) := by
  refine ⟨?_, ?_, ?_, ?_⟩
  · intro hx hy
    rw [updatePlayerTrail, if_neg (by push_neg; exact ⟨hx, hy⟩)]
  · intro rnd2 x y wx wy
    obtain ⟨⟨hlt, hge⟩, -, -⟩ := createTrailParticle_length s rnd2 x y wx wy
    exact ⟨hlt, hge⟩
  · intro hmov hlt
    rw [updatePlayerTrail_noFire sq rnd px py pw ph vx vy tt s hmov hlt]
  · exact updatePlayerTrail_fire_length sq rnd px py pw ph vx vy tt s

/-- Claim C9 witness: the gate-off fact and one triggered call at concrete
inputs, premises discharged by evaluation. -/
theorem claim_C9_trail_gate_witness :
    updatePlayerTrail (fun _ => 0) (fun _ => 0) 0 0 32 32 0 0 1
      (ParticleSystem.init 0) = (0, ParticleSystem.init 0) :=
  (claim_C9_trail_gate (fun _ => 0) (fun _ => 0) 0 0 32 32 0 0 1
    (ParticleSystem.init 0)).1 (by norm_num) (by norm_num)

/-- Claim C9 counterexample: the reading "with the gate open, exactly one
trail particle is spawned per triggering player-update call" is false of
`Game.updatePlayer`.  At `vx = 0.6, vy = 0` (gate open; the square-root
oracle returns the exact value `sqrt(0.36) = 0.6`) a step starting with
`trailTimer = 0` spawns zero particles, since the throttle timer only
reaches `0.2`; at `vx = 3, vy = 4` (`sqrt(25) = 5`) a firing step spawns
`ceil(5/2) = 3` particles.  The final conjunct states the negated
one-per-step property explicitly. -/
theorem claim_C9_trail_gate_counterexample :
    (|(0.6 : ℚ)| > 0.5 ∧
      (updatePlayerTrail (fun _ => 0.6) (fun _ => 0) 0 0 32 32 0.6 0 0
        (ParticleSystem.init 0)).2.particles.length = 0) ∧
    ((|(3 : ℚ)| > 0.5 ∨ |(4 : ℚ)| > 0.5) ∧
      (updatePlayerTrail (fun _ => 5) (fun _ => 0) 0 0 32 32 3 4 0
        (ParticleSystem.init 0)).2.particles.length = 3) ∧
    ¬ (∀ (sq : ℚ → ℚ) (rnd : ℕ → ℚ) (px py pw ph vx vy tt : ℚ)
        (s : ParticleSystem),
        (|vx| > 0.5 ∨ |vy| > 0.5) →
        (s.particles.length : ℤ) < s.maxParticles →
        (updatePlayerTrail sq rnd px py pw ph vx vy tt s).2.particles.length
          = s.particles.length + 1) := by
  have hmov1 : |(0.6 : ℚ)| > 0.5 := by
    rw [abs_of_pos (by norm_num : (0 : ℚ) < 0.6)]
    norm_num
  have h1 := updatePlayerTrail_noFire (fun _ => (0.6 : ℚ)) (fun _ => 0)
    0 0 32 32 0.6 0 0 (ParticleSystem.init 0) (Or.inl hmov1)
    (by norm_num [min_def])
  have hmov2 : |(3 : ℚ)| > 0.5 := by
    rw [abs_of_pos (by norm_num : (0 : ℚ) < 3)]
    norm_num
  have h2 := updatePlayerTrail_fire_length (fun _ => (5 : ℚ)) (fun _ => 0)
    0 0 32 32 3 4 0 (ParticleSystem.init 0) (Or.inl hmov2)
    (by norm_num [min_def])
  have hlen0 : (ParticleSystem.init 0).particles.length = 0 := rfl
  have hmax : (ParticleSystem.init 0).maxParticles = 200 := rfl
  have hceil : ⌈(5 : ℚ) / 2⌉ = 3 := by
    rw [Int.ceil_eq_iff]
    constructor <;> norm_num
  refine ⟨⟨hmov1, ?_⟩, ⟨Or.inl hmov2, ?_⟩, ?_⟩
  · rw [h1]
    rfl
  · rw [hlen0, hmax] at h2
    simp only at h2
    rw [hceil] at h2
    norm_num at h2
    exact_mod_cast h2
  · intro hall
    have h := hall (fun _ => (0.6 : ℚ)) (fun _ => 0) 0 0 32 32 0.6 0 0
      (ParticleSystem.init 0) (Or.inl hmov1) (by rw [hlen0, hmax]; norm_num)
    rw [h1, hlen0] at h
    exact absurd h (by norm_num)

namespace GameClasses

/-- The `Particle` constructor exported by `test/game-classes.js` (lines
4-16), translated over the same particle state type as `game.js`: the field
layout of the two classes is identical. -/
def new (x y velocityX velocityY life : ℚ) (color type : String)
    (size : ℚ := 4) : Particle :=
  { x := x, y := y, velocityX := velocityX, velocityY := velocityY,
    life := life, maxLife := life, color := color, type := type,
    size := size, alpha := 1, twinkleSpeed := 0, twinkleOffset := 0 }

/-- `Particle.update(deltaTime)` of `test/game-classes.js` (lines 18-48). -/
def update (m : MathEnv) (deltaTime : ℚ) (p : Particle) : Particle :=
  let x := p.x + p.velocityX * deltaTime
  let y := p.y + p.velocityY * deltaTime
  let life := p.life - deltaTime
  let alpha0 := max 0 (life / p.maxLife)
  let sparkle :=
    if p.type = "sparkle" ∧ p.twinkleSpeed ≠ 0 then
      let twinkleTime := (p.maxLife - life) * p.twinkleSpeed + p.twinkleOffset
      let twinkleAlpha := 0.3 + 0.7 * (m.sin twinkleTime * 0.5 + 0.5)
      (alpha0 * twinkleAlpha, p.velocityY + m.sin (twinkleTime * 0.5) * 0.01)
    else
      (alpha0, p.velocityY)
  let vy1 :=
    if p.type = "explosion" ∨ p.type = "confetti" then
      sparkle.2 + 0.3 * deltaTime
    else
      sparkle.2
  { p with
    x := x, y := y, life := life, alpha := sparkle.1,
    velocityX := p.velocityX * 0.98,
    velocityY := vy1 * 0.98 }

/-- `Particle.isDead()` of `test/game-classes.js` (lines 120-122). -/
def isDead (p : Particle) : Bool :=
  decide (p.life ≤ 0)

/-- `drawStar(ctx, x, y, size)` of `test/game-classes.js` (lines 98-118). -/
def drawStar (m : MathEnv) (x y size : ℚ) : List CtxOp :=
  CtxOp.beginPath ::
  ((List.range 10).map (fun i =>
    let radius := if i % 2 = 0 then size else size * 0.5
    let angle := (i : ℚ) * m.pi / 5
    let starX := x + m.cos angle * radius
    let starY := y + m.sin angle * radius
    if i = 0 then CtxOp.moveTo starX starY else CtxOp.lineTo starX starY)) ++
  [CtxOp.closePath, CtxOp.fill]

/-- `Particle.render(ctx)` of `test/game-classes.js` (lines 50-96), as the
same context-call trace model used for `game.js`. -/
def render (m : MathEnv) (p : Particle) : List CtxOp :=
  if isDead p then []
  else
    [CtxOp.save, CtxOp.globalAlpha p.alpha] ++
    (if p.type = "trail" then
      [CtxOp.fillStyle p.color, CtxOp.beginPath,
       CtxOp.arc p.x p.y p.size 0 (m.pi * 2), CtxOp.fill]
    else if p.type = "explosion" then
      [CtxOp.fillStyle p.color,
       CtxOp.fillRect (p.x - p.size / 2) (p.y - p.size / 2) p.size p.size]
    else if p.type = "sparkle" then
      CtxOp.fillStyle p.color :: drawStar m p.x p.y p.size
    else if p.type = "confetti" then
      [CtxOp.fillStyle p.color, CtxOp.save, CtxOp.translate p.x p.y,
       CtxOp.rotate (p.life * 0.1),
       CtxOp.fillRect (-(p.size / 2)) (-(p.size / 4)) p.size (p.size / 2),
       CtxOp.restore]
    else
      [CtxOp.fillStyle p.color, CtxOp.beginPath,
       CtxOp.arc p.x p.y p.size 0 (m.pi * 2), CtxOp.fill]) ++
    [CtxOp.restore]

end GameClasses

/-- Claim C10: the `Particle` class exported by `test/game-classes.js` is
behaviorally identical to the one in `game.js`: the constructors build the
same state, `update` produces the same successor state, `isDead` agrees,
and `render` issues the same drawing-call trace for every particle. -/
theorem claim_C10_particle_equiv (m : MathEnv) (dt : ℚ) (p : Particle)
    (x y vx vy life size : ℚ) (color type : String) :
    GameClasses.new x y vx vy life color type size
      = Particle.new x y vx vy life color type size ∧
    GameClasses.update m dt p = Particle.update m dt p ∧
    GameClasses.isDead p = p.isDead ∧
    GameClasses.drawStar m x y size = drawStar m x y size ∧
    GameClasses.render m p = Particle.render m p :=
  ⟨rfl, rfl, rfl, rfl, rfl⟩
